import Mathlib

/-!
Shallow embedding of the core of `kbs2`, a local secret manager, and proofs
about it.  The embedding follows the Rust sources:

* `src/kbs2/record.rs`   — the record data model and its serde-derived JSON form;
* `src/kbs2/backend.rs`  — the `RageLib` backend (`encrypt` / `decrypt`);
* `src/kbs2/util.rs`     — `read_guarded`, `unwrap_keyfile` and the wrapped-key
  size guard `MAX_WRAPPED_KEY_FILESIZE`;
* `src/kbs2/agent.rs`    — the authentication agent's request handling;
* `src/kbs2/session.rs`  — `Session::get_record` / `Session::delete_record`.

The `age` cryptographic library is external to the repository; it is embedded
symbolically: an X25519 ciphertext is modelled as a value recording the
recipient and the plaintext, and decryption succeeds exactly when one of the
supplied identities is the private counterpart of that recipient, which is the
functional contract the source relies on.  `serde_json` is embedded at the
level of JSON values (`Json` below): serialization produces a JSON value
following serde's derive semantics and deserialization consumes one, the
printing/parsing between JSON values and byte strings being the identity
round-trip the source obtains from `serde_json::to_string` / `from_str`.
-/

namespace Kbs2

/-! ## JSON values -/

/-- A JSON value, sufficient for the serde-derived serializations used by
`kbs2` records (strings, unsigned numbers, and ordered objects). -/
inductive Json where
  | str : String → Json
  | num : Nat → Json
  | obj : List (String × Json) → Json

/-- Extract a string from an optional JSON value. -/
def asStr : Option Json → Option String
  | some (Json.str s) => some s
  | _ => none

/-- Extract a number from an optional JSON value. -/
def asNum : Option Json → Option Nat
  | some (Json.num n) => some n
  | _ => none

/-- Extract an object's field list from an optional JSON value. -/
def asObj : Option Json → Option (List (String × Json))
  | some (Json.obj o) => some o
  | _ => none

/-! ## Record model (`src/kbs2/record.rs`) -/

/-- Fields of a login record (`LoginFields`). -/
structure LoginFields where
  username : String
  password : String
deriving DecidableEq, Repr

/-- Fields of an environment record (`EnvironmentFields`). -/
structure EnvironmentFields where
  variable_ : String
  value : String
deriving DecidableEq, Repr

/-- Fields of an unstructured record (`UnstructuredFields`). -/
structure UnstructuredFields where
  contents : String
deriving DecidableEq, Repr

/-- The core contents of a `kbs2` record (`RecordBody`), a closed tagged
union over the three record kinds. -/
inductive RecordBody where
  | Login : LoginFields → RecordBody
  | Environment : EnvironmentFields → RecordBody
  | Unstructured : UnstructuredFields → RecordBody
deriving DecidableEq, Repr

/-- The envelope of a `kbs2` record (`Record`): creation timestamp in seconds
since the Unix epoch, identifying label, and typed body. -/
structure Record where
  timestamp : Nat
  label : String
  body : RecordBody
deriving DecidableEq, Repr

/-- Serialization of a record body, following serde's derive on `RecordBody`
with the attribute `serde(tag = "kind", content = "fields")`: the tag value is
the variant name as written in the source (`Login`, `Environment`,
`Unstructured`), and the payload object appears under the key `fields` with
the struct's fields in declaration order. -/
def bodyToJson : RecordBody → Json
  | RecordBody.Login f =>
      Json.obj [("kind", Json.str "Login"),
                ("fields", Json.obj [("username", Json.str f.username),
                                     ("password", Json.str f.password)])]
  | RecordBody.Environment f =>
      Json.obj [("kind", Json.str "Environment"),
                ("fields", Json.obj [("variable", Json.str f.variable_),
                                     ("value", Json.str f.value)])]
  | RecordBody.Unstructured f =>
      Json.obj [("kind", Json.str "Unstructured"),
                ("fields", Json.obj [("contents", Json.str f.contents)])]

/-- Serialization of the record envelope, following serde's derive on
`Record`: a JSON object with the fields in declaration order. -/
def recordToJson (r : Record) : Json :=
  Json.obj [("timestamp", Json.num r.timestamp),
            ("label", Json.str r.label),
            ("body", bodyToJson r.body)]

/-- Deserialization of a record body, following serde's derive on
`RecordBody`: the object must carry the tag under `kind` (one of the variant
names) and the variant's fields under `fields`. -/
def bodyFromJson : Json → Option RecordBody
  | Json.obj fields =>
    match fields.lookup "kind", asObj (fields.lookup "fields") with
    | some (Json.str "Login"), some fs =>
        match asStr (fs.lookup "username"), asStr (fs.lookup "password") with
        | some u, some p => some (RecordBody.Login ⟨u, p⟩)
        | _, _ => none
    | some (Json.str "Environment"), some fs =>
        match asStr (fs.lookup "variable"), asStr (fs.lookup "value") with
        | some v, some w => some (RecordBody.Environment ⟨v, w⟩)
        | _, _ => none
    | some (Json.str "Unstructured"), some fs =>
        match asStr (fs.lookup "contents") with
        | some c => some (RecordBody.Unstructured ⟨c⟩)
        | _ => none
    | _, _ => none
  | _ => none

/-- Deserialization of the record envelope. -/
def recordFromJson : Json → Option Record
  | Json.obj fields =>
    match asNum (fields.lookup "timestamp"), asStr (fields.lookup "label"),
          fields.lookup "body" with
    | some ts, some lb, some bj =>
        (bodyFromJson bj).map fun b => ⟨ts, lb, b⟩
    | _, _, _ => none
  | _ => none

/-- Round-trip of the serde-derived record serialization: deserializing the
serialization of any record yields the record back. -/
theorem recordFromJson_recordToJson (r : Record) :
    recordFromJson (recordToJson r) = some r := by
  obtain ⟨ts, lb, body⟩ := r
  cases body <;> rfl

/-! ## Symbolic X25519 keys and the `RageLib` backend
(`src/kbs2/backend.rs`) -/

/-- An age X25519 identity (private key), symbolic. -/
structure SecretKey where
  scalar : Nat
deriving DecidableEq, Repr

/-- An age X25519 recipient (public key), symbolic. -/
structure RecipientKey where
  point : Nat
deriving DecidableEq, Repr

/-- The public counterpart of an identity. The wrapper types keep private and
public material distinct; the map is injective by construction. -/
def SecretKey.toPublic (k : SecretKey) : RecipientKey :=
  ⟨k.scalar⟩

/-- An ASCII-armored age ciphertext, symbolic: it records the recipient the
message was encrypted to and the JSON plaintext inside. -/
structure Armored where
  recipient : RecipientKey
  plaintext : Json

/-- The `RageLib` backend state: a configured recipient (public key) and the
parsed identities (`RageLib::new` enforces that exactly one identity was
loaded, so well-formed backends carry a singleton list). -/
structure RageLib where
  pubkey : RecipientKey
  identities : List SecretKey

/-- The `RageLib::encrypt` operation: serialize the record to JSON and
encrypt it to the backend's configured recipient, producing ASCII armor. -/
def RageLib.encrypt (b : RageLib) (record : Record) : Armored :=
  ⟨b.pubkey, recordToJson record⟩

/-- The `RageLib::decrypt` operation: decrypt the armored input with the
backend's identities, then parse the plaintext as a record.  When no identity
matches the ciphertext's recipient, the age library reports
`NoMatchingKeys`, which the source maps to the message
`unable to decrypt (backend reports: NoMatchingKeys)`.  A plaintext that is
not a valid record serialization is a serde error, abstracted here as a
distinct message. -/
def RageLib.decrypt (b : RageLib) (encrypted : Armored) : Except String Record :=
  if b.identities.any fun ident => ident.toPublic == encrypted.recipient then
    match recordFromJson encrypted.plaintext with
    | some r => Except.ok r
    | none => Except.error "invalid record JSON"
  else
    Except.error "unable to decrypt (backend reports: NoMatchingKeys)"

/-! ## Wrapped keyfiles (`src/kbs2/util.rs`) -/

/-- The maximum size of a wrapped key file, on disk (`MAX_WRAPPED_KEY_FILESIZE`). -/
def MAX_WRAPPED_KEY_FILESIZE : Nat := 4096

/-- The maximum scrypt work factor that `unwrap_keyfile` passes to the age
passphrase decryptor: the source calls `decryptor.decrypt(&password, Some(18))`. -/
def UNWRAP_MAX_WORK_FACTOR : Nat := 18

/-- What the bytes of a candidate wrapped keyfile parse to under
`age::Decryptor::new` over an armored reader:

* `passphrase wf pass plain` — a passphrase-wrapped envelope whose scrypt
  work factor is `wf`, whose wrapping passphrase is `pass`, and whose
  plaintext is `plain`;
* `otherRecipient` — a valid age envelope of some non-passphrase recipient
  kind;
* `invalid` — bytes that do not parse as an age envelope at all. -/
inductive ParsedEnvelope where
  | passphrase (workFactor : Nat) (pass : String) (plain : String) : ParsedEnvelope
  | otherRecipient : ParsedEnvelope
  | invalid : ParsedEnvelope
deriving DecidableEq, Repr

/-- A candidate wrapped keyfile on disk: its on-disk byte size and what its
bytes parse to.  The byte content is represented by its parse outcome, which
is all that `unwrap_keyfile` observes of it. -/
structure KeyFile where
  size : Nat
  envelope : ParsedEnvelope
deriving DecidableEq, Repr

/-- Errors produced by `read_guarded` and `unwrap_keyfile`.  Each constructor
corresponds to one error site in the source; the exact message strings are
listed in the comments. -/
inductive UnwrapError where
  /-- `requested file is suspiciously large, refusing` (the size guard in
  `read_guarded`). -/
  | tooLarge : UnwrapError
  /-- `unable to load private key (backend reports: ...)` (the bytes do not
  parse as an age envelope). -/
  | invalidEnvelope : UnwrapError
  /-- `key unwrap failed; not a password-wrapped keyfile?` (the envelope is
  of a non-passphrase recipient kind). -/
  | notPassphraseWrapped : UnwrapError
  /-- `unable to decrypt (backend reports: ExcessiveWork ...)` (the file's
  scrypt work factor exceeds the decryption ceiling). -/
  | excessiveWork : UnwrapError
  /-- `unable to decrypt (backend reports: ...)` (wrong passphrase or
  corrupted ciphertext). -/
  | decryptFailed : UnwrapError
deriving DecidableEq, Repr

/-- The `read_guarded` helper: read the whole file, or fail if its on-disk
size exceeds the limit (strict comparison `meta.len() > limit`).  The
returned bytes are represented by their parse outcome. -/
def read_guarded (file : KeyFile) (limit : Nat) : Except UnwrapError ParsedEnvelope :=
  if file.size > limit then Except.error UnwrapError.tooLarge
  else Except.ok file.envelope

/-- Decryption of an already-parsed envelope with the master password, as
performed by `unwrap_keyfile` after `read_guarded`: a non-passphrase envelope
and an unparseable one are rejected first; then the age passphrase decryptor
runs with work-factor ceiling `UNWRAP_MAX_WORK_FACTOR`, refusing files whose
scrypt work factor exceeds it and failing on a wrong passphrase. -/
def unwrapParsed (env : ParsedEnvelope) (password : String) : Except UnwrapError String :=
  match env with
  | ParsedEnvelope.invalid => Except.error UnwrapError.invalidEnvelope
  | ParsedEnvelope.otherRecipient => Except.error UnwrapError.notPassphraseWrapped
  | ParsedEnvelope.passphrase wf pass plain =>
    if wf ≤ UNWRAP_MAX_WORK_FACTOR then
      if pass = password then Except.ok plain
      else Except.error UnwrapError.decryptFailed
    else Except.error UnwrapError.excessiveWork

/-- The `unwrap_keyfile` operation: read the keyfile under the
`MAX_WRAPPED_KEY_FILESIZE` guard, then parse and decrypt it with the given
password. -/
def unwrap_keyfile (file : KeyFile) (password : String) : Except UnwrapError String :=
  match read_guarded file MAX_WRAPPED_KEY_FILESIZE with
  | Except.error e => Except.error e
  | Except.ok env => unwrapParsed env password

/-! ## The authentication agent (`src/kbs2/agent.rs`) -/

/-- The version of the agent protocol (`PROTOCOL_VERSION`). -/
def PROTOCOL_VERSION : Nat := 1

/-- The kinds of requests understood by the agent (`RequestBody`). -/
inductive RequestBody where
  | UnwrapKey (pubkey : String) (keyfile : String) (password : String) : RequestBody
  | QueryUnwrappedKey (pubkey : String) : RequestBody
  | GetUnwrappedKey (pubkey : String) : RequestBody
  | FlushKeys : RequestBody
  | Quit : RequestBody
deriving DecidableEq, Repr

/-- The entire request message, including the protocol field (`Request`). -/
structure Request where
  protocol : Nat
  body : RequestBody
deriving DecidableEq, Repr

/-- The kinds of failures encoded by a `Response` (`FailureKind`).  The
constructor named `Io` in the source is spelled `IoError` here. -/
inductive FailureKind where
  | Auth : FailureKind
  | IoError (msg : String) : FailureKind
  | Malformed (msg : String) : FailureKind
  | Unwrap (msg : String) : FailureKind
  | VersionMismatch (v : Nat) : FailureKind
  | Query : FailureKind
deriving DecidableEq, Repr

/-- The kinds of responses sent by the agent (`Response`). -/
inductive Response where
  | Success (msg : String) : Response
  | Failure (kind : FailureKind) : Response
deriving DecidableEq, Repr

/-- The agent's unwrapped-key cache, modelling the `HashMap` from a public
key to the pair (keyfile path, unwrapped key material).  `lookup` finds the
value for a key, `insert` adds a binding, keeping at most one entry per key. -/
def KeyCache : Type := List (String × String × String)

/-- Cache lookup (`HashMap::get`). -/
def KeyCache.lookup (m : KeyCache) (pubkey : String) : Option (String × String) :=
  List.lookup pubkey m

/-- Cache membership (`HashMap::contains_key`). -/
def KeyCache.containsKey (m : KeyCache) (pubkey : String) : Bool :=
  (m.lookup pubkey).isSome

/-- Cache insertion (`HashMap::insert`): the new binding replaces any
previous binding for the same key. -/
def KeyCache.insert (m : KeyCache) (pubkey : String) (v : String × String) : KeyCache :=
  (pubkey, v) :: List.filter (fun e => !(e.1 == pubkey)) m

/-- The mutable state of a running agent (`Agent`): the unwrapped-key cache
and the quitting flag.  The socket path is irrelevant to request handling
and omitted. -/
structure AgentState where
  unwrapped_keys : KeyCache
  quitting : Bool

/-- The filesystem-and-unwrap oracle standing for
`RageLib::unwrap_keyfile(&keyfile, password)` as invoked by the agent: given
the keyfile path and the password, either the unwrapped key material or the
stringified error.  Request handling is parameterized by it; results that
hold for every oracle are results that do not depend on reading the keyfile. -/
def UnwrapOracle : Type := String → String → Except String String

/-- The agent's `handle_request_body`: handle one request payload, returning
the successor state and the response written to the client. -/
def handle_request_body (fs : UnwrapOracle) (a : AgentState) :
    RequestBody → AgentState × Response
  | RequestBody.UnwrapKey pubkey keyfile password =>
    if a.unwrapped_keys.containsKey pubkey then
      (a, Response.Success "OK; agent already has unwrapped key")
    else
      match fs keyfile password with
      | Except.ok unwrapped_key =>
        ({ a with unwrapped_keys := a.unwrapped_keys.insert pubkey (keyfile, unwrapped_key) },
         Response.Success "OK; unwrapped key ready")
      | Except.error e => (a, Response.Failure (FailureKind.Unwrap e))
  | RequestBody.QueryUnwrappedKey pubkey =>
    if a.unwrapped_keys.containsKey pubkey then (a, Response.Success "OK")
    else (a, Response.Failure FailureKind.Query)
  | RequestBody.GetUnwrappedKey pubkey =>
    match a.unwrapped_keys.lookup pubkey with
    | some (_, unwrapped_key) => (a, Response.Success unwrapped_key)
    | none => (a, Response.Failure FailureKind.Query)
  | RequestBody.FlushKeys =>
    ({ a with unwrapped_keys := [] }, Response.Success "OK")
  | RequestBody.Quit =>
    ({ a with quitting := true }, Response.Success "OK")

/-- The request loop of the agent's `handle_client`, over the sequence of
requests parsed from the client's lines: each request is answered in order,
except that a request whose protocol field differs from `PROTOCOL_VERSION`
is answered with `Failure (VersionMismatch PROTOCOL_VERSION)` and the
connection is closed (the remaining requests are not processed). -/
def handle_client (fs : UnwrapOracle) :
    AgentState → List Request → AgentState × List Response
  | a, [] => (a, [])
  | a, req :: rest =>
    if req.protocol ≠ PROTOCOL_VERSION then
      (a, [Response.Failure (FailureKind.VersionMismatch PROTOCOL_VERSION)])
    else
      let step := handle_request_body fs a req.body
      let next := handle_client fs step.1 rest
      (next.1, step.2 :: next.2)

/-! ## Session record access (`src/kbs2/session.rs`) -/

/-- The record store: the directory's regular files, as a mapping from file
name (the record label) to the armored ciphertext stored in the file. -/
def Store : Type := List (String × Armored)

/-- Store lookup by label: the contents of the file `dir/label`, when that
file exists. -/
def Store.lookup (s : Store) (label : String) : Option Armored :=
  List.lookup label s

/-- Removal of the file `dir/label` from the store. -/
def Store.remove (s : Store) (label : String) : Store :=
  List.filter (fun e => !(e.1 == label)) s

/-- The session: a `RageLib` backend plus the record store named by the
configuration. -/
structure Session where
  backend : RageLib
  store : Store

/-- The session's `get_record`: a missing file yields the error
`no such record: <label>`; otherwise the ciphertext is read and passed to
`RageLib::decrypt`. -/
def Session.get_record (s : Session) (label : String) : Except String Record :=
  match s.store.lookup label with
  | none => Except.error ("no such record: " ++ label)
  | some contents => s.backend.decrypt contents

/-- The session's `delete_record`: remove the record's file, a missing file
yielding the error `no such record: <label>`.  The resulting store is
returned alongside the result, so that what happened to the other entries is
part of the statement. -/
def Session.delete_record (s : Session) (label : String) :
    Except String Unit × Store :=
  match s.store.lookup label with
  | none => (Except.error ("no such record: " ++ label), s.store)
  | some _ => (Except.ok (), s.store.remove label)

/-! ## Concrete sample values used by witnesses and counterexamples -/

/-- A concrete login record, as in the repository's end-to-end scenario S1. -/
def sampleRecord : Record :=
  ⟨42, "test-record", RecordBody.Login ⟨"fakeuser", "fakepass"⟩⟩

/-- An oracle whose unwrap always succeeds with fixed key material. -/
def fsOk : UnwrapOracle := fun _ _ => Except.ok "UNWRAPPED-KEY"

/-- An oracle whose unwrap always fails with a fixed message. -/
def fsErr : UnwrapOracle := fun _ _ => Except.error "unwrap boom"

/-- An agent state whose cache holds one entry for the public key `PUB`. -/
def cachedState : AgentState := ⟨[("PUB", "kf0", "KEY0")], false⟩

/-- An agent state with an empty cache. -/
def emptyState : AgentState := ⟨[], false⟩

/-- A concrete backend for store witnesses. -/
def sampleBackend : RageLib := ⟨⟨0⟩, [⟨0⟩]⟩

/-- A one-entry store for store witnesses. -/
def sampleStore : Store := [("a", ⟨⟨0⟩, Json.str "ciphertext"⟩)]

/-! ## Claim theorems -/

/-- C1: for every record `r` and every backend built from a matching keypair
(configured recipient is the public counterpart of the configured identity),
decrypting the armored output of `encrypt` yields a record structurally
equal to `r`. -/
theorem encrypt_decrypt_roundtrip (k : SecretKey) (r : Record) :
    RageLib.decrypt ⟨k.toPublic, [k]⟩ (RageLib.encrypt ⟨k.toPublic, [k]⟩ r)
      = Except.ok r := by
  simp [RageLib.encrypt, RageLib.decrypt, recordFromJson_recordToJson r]

/-- C2: for backends built from independent (distinct) keypairs, decrypting
under the second backend what was encrypted under the first fails, and the
error message is exactly
`unable to decrypt (backend reports: NoMatchingKeys)`. -/
theorem wrong_key_decrypt_fails (k1 k2 : SecretKey) (r : Record)
    (h : k1 ≠ k2) :
    RageLib.decrypt ⟨k2.toPublic, [k2]⟩ (RageLib.encrypt ⟨k1.toPublic, [k1]⟩ r)
      = Except.error "unable to decrypt (backend reports: NoMatchingKeys)" := by
  have hs : k2.scalar ≠ k1.scalar := by
    intro he
    exact h (by cases k1; cases k2; simp_all)
  simp [RageLib.encrypt, RageLib.decrypt, SecretKey.toPublic, RecipientKey.mk.injEq, hs]

/-- Witness for C2 at a concrete pair of distinct keys and a concrete record. -/
theorem wrong_key_decrypt_fails_witness :
    (⟨0⟩ : SecretKey) ≠ ⟨1⟩ ∧
    RageLib.decrypt ⟨SecretKey.toPublic ⟨1⟩, [⟨1⟩]⟩
        (RageLib.encrypt ⟨SecretKey.toPublic ⟨0⟩, [⟨0⟩]⟩ sampleRecord)
      = Except.error "unable to decrypt (backend reports: NoMatchingKeys)" :=
  ⟨by decide, wrong_key_decrypt_fails ⟨0⟩ ⟨1⟩ sampleRecord (by decide)⟩

/-- C3 counterexample: a wrapped keyfile produced with scrypt work factor 22
is refused by `unwrap_keyfile` even with the correct passphrase, contrary to
the claim that work factors up to 22 are accepted: the decryption ceiling in
the source is 18, not 22. -/
theorem workfactor_22_rejected :
    unwrap_keyfile ⟨100, ParsedEnvelope.passphrase 22 "pw" "SECRET-KEY"⟩ "pw"
      = Except.error UnwrapError.excessiveWork ∧
    UNWRAP_MAX_WORK_FACTOR ≠ 22 :=
  ⟨rfl, by decide⟩

/-- C3 (amended): `unwrap_keyfile` sets a scrypt decryption work-factor
ceiling of 18: a wrapped keyfile within the size bound whose work factor is
at most 18 is accepted when decrypted with its wrapping passphrase. -/
theorem unwrap_keyfile_work_factor_ceiling (file : KeyFile) (wf : Nat)
    (pass plain : String)
    (hsize : file.size ≤ MAX_WRAPPED_KEY_FILESIZE)
    (henv : file.envelope = ParsedEnvelope.passphrase wf pass plain)
    (hwf : wf ≤ UNWRAP_MAX_WORK_FACTOR) :
    unwrap_keyfile file pass = Except.ok plain := by
  have h1 : ¬ (file.size > MAX_WRAPPED_KEY_FILESIZE) := Nat.not_lt.mpr hsize
  simp [unwrap_keyfile, read_guarded, h1, henv, unwrapParsed, hwf]

/-- Witness for the amended C3 at a concrete work-factor-18 keyfile. -/
theorem unwrap_keyfile_work_factor_ceiling_witness :
    (100 ≤ MAX_WRAPPED_KEY_FILESIZE ∧ 18 ≤ UNWRAP_MAX_WORK_FACTOR) ∧
    unwrap_keyfile ⟨100, ParsedEnvelope.passphrase 18 "pw" "SECRET-KEY"⟩ "pw"
      = Except.ok "SECRET-KEY" :=
  ⟨⟨by decide, by decide⟩,
   unwrap_keyfile_work_factor_ceiling ⟨100, ParsedEnvelope.passphrase 18 "pw" "SECRET-KEY"⟩
     18 "pw" "SECRET-KEY" (by decide) rfl (by decide)⟩

/-- C4: handling `UnwrapKey(pub, path, pass)`: if `pub` is cached, the reply
is `Success "OK; agent already has unwrapped key"` and the state is unchanged
for every oracle, so the keyfile is not re-read; if `pub` is not cached and
the unwrap succeeds with key material `k`, the entry `pub ↦ (path, k)` is
inserted and the reply is `Success "OK; unwrapped key ready"`; if the unwrap
fails with message `m`, the reply is `Failure (Unwrap m)` and the cache is
unchanged. -/
theorem agent_unwrap_key_semantics (fs : UnwrapOracle) (a : AgentState)
    (pubkey keyfile password k m : String) :
    (a.unwrapped_keys.containsKey pubkey = true →
      handle_request_body fs a (RequestBody.UnwrapKey pubkey keyfile password)
        = (a, Response.Success "OK; agent already has unwrapped key")) ∧
    (a.unwrapped_keys.containsKey pubkey = false →
      fs keyfile password = Except.ok k →
      handle_request_body fs a (RequestBody.UnwrapKey pubkey keyfile password)
        = ({ a with
              unwrapped_keys := a.unwrapped_keys.insert pubkey (keyfile, k) },
           Response.Success "OK; unwrapped key ready")) ∧
    (a.unwrapped_keys.containsKey pubkey = false →
      fs keyfile password = Except.error m →
      handle_request_body fs a (RequestBody.UnwrapKey pubkey keyfile password)
        = (a, Response.Failure (FailureKind.Unwrap m))) := by
  refine ⟨fun h1 => ?_, fun h1 h2 => ?_, fun h1 h2 => ?_⟩ <;>
    simp [handle_request_body, h1]
  · simp [h2]
  · simp [h2]

/-- Witness for C4: the three branches at concrete states and oracles. -/
theorem agent_unwrap_key_semantics_witness :
    (handle_request_body fsOk cachedState (RequestBody.UnwrapKey "PUB" "kf1" "pw")
      = (cachedState, Response.Success "OK; agent already has unwrapped key")) ∧
    (handle_request_body fsOk emptyState (RequestBody.UnwrapKey "PUB" "kf" "pw")
      = ({ emptyState with
            unwrapped_keys :=
              KeyCache.insert emptyState.unwrapped_keys "PUB" ("kf", "UNWRAPPED-KEY") },
         Response.Success "OK; unwrapped key ready")) ∧
    (handle_request_body fsErr emptyState (RequestBody.UnwrapKey "PUB" "kf" "pw")
      = (emptyState, Response.Failure (FailureKind.Unwrap "unwrap boom"))) :=
  ⟨(agent_unwrap_key_semantics fsOk cachedState "PUB" "kf1" "pw" "x" "y").1 rfl,
   (agent_unwrap_key_semantics fsOk emptyState "PUB" "kf" "pw" "UNWRAPPED-KEY" "y").2.1
     rfl rfl,
   (agent_unwrap_key_semantics fsErr emptyState "PUB" "kf" "pw" "x" "unwrap boom").2.2
     rfl rfl⟩

/-- C5: a request whose protocol field differs from the server's protocol
version is answered with `Failure (VersionMismatch PROTOCOL_VERSION)` and the
connection is closed: the state (cache and quit flag) is unchanged and no
further request of the connection is processed, regardless of the request
body. -/
theorem protocol_version_gating (fs : UnwrapOracle) (a : AgentState)
    (req : Request) (rest : List Request)
    (h : req.protocol ≠ PROTOCOL_VERSION) :
    handle_client fs a (req :: rest)
      = (a, [Response.Failure (FailureKind.VersionMismatch PROTOCOL_VERSION)]) := by
  simp [handle_client, h]

/-- Witness for C5 at a concrete protocol-2 request followed by another
request that is never processed. -/
theorem protocol_version_gating_witness :
    (2 : Nat) ≠ PROTOCOL_VERSION ∧
    handle_client fsOk emptyState [⟨2, RequestBody.Quit⟩, ⟨1, RequestBody.FlushKeys⟩]
      = (emptyState, [Response.Failure (FailureKind.VersionMismatch PROTOCOL_VERSION)]) :=
  ⟨by decide,
   protocol_version_gating fsOk emptyState ⟨2, RequestBody.Quit⟩
     [⟨1, RequestBody.FlushKeys⟩] (by decide)⟩

/-- C6 counterexample: serializing the sample login record produces a body
whose `kind` tag is the capitalized variant name `Login`, not the lowercase
`login` the claim states. -/
theorem login_tag_not_lowercase :
    recordToJson sampleRecord
      = Json.obj [("timestamp", Json.num 42),
                  ("label", Json.str "test-record"),
                  ("body", Json.obj [("kind", Json.str "Login"),
                                     ("fields", Json.obj
                                       [("username", Json.str "fakeuser"),
                                        ("password", Json.str "fakepass")])])] ∧
    "Login" ≠ "login" :=
  ⟨rfl, by decide⟩

/-- C6 (amended): for every login record, the JSON serialization is the
envelope with keys `timestamp`, `label` and `body`, the body being tagged
under the key `kind` with the capitalized variant name `Login` and carrying
its payload under the key `fields`; deserializing this JSON yields the
original record. -/
theorem login_record_serialization (ts : Nat) (lb u p : String) :
    recordToJson ⟨ts, lb, RecordBody.Login ⟨u, p⟩⟩
      = Json.obj [("timestamp", Json.num ts),
                  ("label", Json.str lb),
                  ("body", Json.obj [("kind", Json.str "Login"),
                                     ("fields", Json.obj
                                       [("username", Json.str u),
                                        ("password", Json.str p)])])] ∧
    recordFromJson (recordToJson ⟨ts, lb, RecordBody.Login ⟨u, p⟩⟩)
      = some ⟨ts, lb, RecordBody.Login ⟨u, p⟩⟩ :=
  ⟨rfl, recordFromJson_recordToJson _⟩

/-- C7: `unwrap_keyfile` fails with the size-guard error whenever the file's
on-disk size strictly exceeds 4096 bytes, whatever the file's contents and
the password, so no parse or decryption is attempted. -/
theorem unwrap_keyfile_size_guard (file : KeyFile) (password : String)
    (h : file.size > MAX_WRAPPED_KEY_FILESIZE) :
    unwrap_keyfile file password = Except.error UnwrapError.tooLarge := by
  simp [unwrap_keyfile, read_guarded, h]

/-- Witness for C7 at a concrete 4097-byte file (whose bytes do not even
parse as an envelope: the guard fires first). -/
theorem unwrap_keyfile_size_guard_witness :
    4097 > MAX_WRAPPED_KEY_FILESIZE ∧
    unwrap_keyfile ⟨4097, ParsedEnvelope.invalid⟩ "pw"
      = Except.error UnwrapError.tooLarge :=
  ⟨by decide,
   unwrap_keyfile_size_guard ⟨4097, ParsedEnvelope.invalid⟩ "pw" (by decide)⟩

/-- C8: for a label absent from the store, `get_record` returns the error
`no such record: <label>` for every backend (so `decrypt` is never reached),
and `delete_record` returns the same error while leaving the store — every
other entry included — unchanged. -/
theorem missing_record_errors (b : RageLib) (store : Store) (label : String)
    (h : store.lookup label = none) :
    Session.get_record ⟨b, store⟩ label
      = Except.error ("no such record: " ++ label) ∧
    Session.delete_record ⟨b, store⟩ label
      = (Except.error ("no such record: " ++ label), store) := by
  constructor <;> simp [Session.get_record, Session.delete_record, h]

/-- Witness for C8 at a concrete one-entry store and a missing label. -/
theorem missing_record_errors_witness :
    Store.lookup sampleStore "missing" = none ∧
    Session.get_record ⟨sampleBackend, sampleStore⟩ "missing"
      = Except.error ("no such record: " ++ "missing") ∧
    Session.delete_record ⟨sampleBackend, sampleStore⟩ "missing"
      = (Except.error ("no such record: " ++ "missing"), sampleStore) :=
  ⟨rfl,
   (missing_record_errors sampleBackend sampleStore "missing" rfl).1,
   (missing_record_errors sampleBackend sampleStore "missing" rfl).2⟩

/-- C9: when the cache already holds `(path0, key0)` for `pub`, handling
`UnwrapKey(pub, path1, pass1)` with any other path and passphrase leaves the
state unchanged for every oracle — the new path and passphrase are ignored —
and a subsequent `GetUnwrappedKey(pub)` on the resulting state still returns
`key0`. -/
theorem agent_cached_entry_frame (fs1 fs2 : UnwrapOracle) (a : AgentState)
    (pubkey path0 key0 path1 pass1 : String)
    (h : a.unwrapped_keys.lookup pubkey = some (path0, key0)) :
    handle_request_body fs1 a (RequestBody.UnwrapKey pubkey path1 pass1)
      = (a, Response.Success "OK; agent already has unwrapped key") ∧
    handle_request_body fs2
        (handle_request_body fs1 a (RequestBody.UnwrapKey pubkey path1 pass1)).1
        (RequestBody.GetUnwrappedKey pubkey)
      = ((handle_request_body fs1 a (RequestBody.UnwrapKey pubkey path1 pass1)).1,
         Response.Success key0) := by
  have hc : a.unwrapped_keys.containsKey pubkey = true := by
    simp [KeyCache.containsKey, h]
  have h1 : handle_request_body fs1 a (RequestBody.UnwrapKey pubkey path1 pass1)
      = (a, Response.Success "OK; agent already has unwrapped key") := by
    simp [handle_request_body, hc]
  refine ⟨h1, ?_⟩
  rw [h1]
  simp [handle_request_body, h]

/-- Witness for C9 at a concrete cached state, with a different keyfile path
and passphrase in the second request. -/
theorem agent_cached_entry_frame_witness :
    KeyCache.lookup cachedState.unwrapped_keys "PUB" = some ("kf0", "KEY0") ∧
    handle_request_body fsOk cachedState (RequestBody.UnwrapKey "PUB" "kf1" "pw1")
      = (cachedState, Response.Success "OK; agent already has unwrapped key") ∧
    handle_request_body fsErr
        (handle_request_body fsOk cachedState
          (RequestBody.UnwrapKey "PUB" "kf1" "pw1")).1
        (RequestBody.GetUnwrappedKey "PUB")
      = ((handle_request_body fsOk cachedState
            (RequestBody.UnwrapKey "PUB" "kf1" "pw1")).1,
         Response.Success "KEY0") :=
  ⟨rfl,
   (agent_cached_entry_frame fsOk fsErr cachedState "PUB" "kf0" "KEY0" "kf1" "pw1" rfl).1,
   (agent_cached_entry_frame fsOk fsErr cachedState "PUB" "kf0" "KEY0" "kf1" "pw1" rfl).2⟩

/-- C10: the wrapped-keyfile size guard is a strict comparison: a file of
exactly 4096 bytes passes `read_guarded`, and `unwrap_keyfile` proceeds to
the parse-and-decrypt stage on its contents instead of refusing it. -/
theorem size_guard_strict (env : ParsedEnvelope) (password : String) :
    read_guarded ⟨MAX_WRAPPED_KEY_FILESIZE, env⟩ MAX_WRAPPED_KEY_FILESIZE
      = Except.ok env ∧
    unwrap_keyfile ⟨MAX_WRAPPED_KEY_FILESIZE, env⟩ password
      = unwrapParsed env password := by
  constructor <;> simp [read_guarded, unwrap_keyfile]

end Kbs2
